import Mathlib

/-!
Verification development for the pibooth diagnostic script
(`pibooth/scripts/diagnostic.py`).

The script drives a DSLR camera through the gphoto2 driver: it enumerates
connected cameras, dumps the camera configuration tree, performs a scripted
sequence of setting changes and a preview/capture/download/save cycle, and
records every step to a log.  Driver calls that can raise `gp.GPhoto2Error`
(or, in the capture phase, any exception) are modelled as `Except String`
values supplied by an environment record; the script's own control flow is
translated directly.
-/

namespace PiboothDiag

/-- Widget kinds of the gphoto2 configuration tree (`gp.GP_WIDGET_*`). -/
inductive WidgetType where
  | window
  | section
  | text
  | range
  | toggle
  | radio
  | menu
  | button
  | date
deriving DecidableEq, Repr

/-- Scalar attributes of one configuration-tree node, as read through the
gphoto2 widget getters (`get_name`, `get_label`, `get_readonly`,
`get_value`, `get_choices`, `get_range`).  Values are modelled by their
printed form. -/
structure WidgetData where
  name : String
  label : String
  readonly : Bool
  valueType : String
  value : String
  choices : List String
  rangeMin : String
  rangeMax : String
  rangeStep : String
deriving DecidableEq, Repr

/-- A node of the camera configuration tree returned by `camera.get_config()`:
attributes, widget kind, and ordered children. -/
inductive CameraWidget where
  | mk (data : WidgetData) (wtype : WidgetType) (children : List CameraWidget)

def CameraWidget.data : CameraWidget → WidgetData
  | .mk d _ _ => d

def CameraWidget.wtype : CameraWidget → WidgetType
  | .mk _ t _ => t

def CameraWidget.children : CameraWidget → List CameraWidget
  | .mk _ _ cs => cs

def CameraWidget.name (w : CameraWidget) : String := w.data.name

/-- The `gp_widget_types` lookup table of `print_config`. -/
def gp_widget_types : WidgetType → String
  | .window => "Window toplevel"
  | .section => "Section (or Tab)"
  | .text => "Text"
  | .range => "Slider"
  | .toggle => "Toggle button (or check box)"
  | .radio => "Radio button"
  | .menu => "Menu widget (same as Radio)"
  | .button => "Button press"
  | .date => "Date entering"

/-- Python's `repr` of a list of strings, as produced by an f-string holding
a list comprehension over the choices. -/
def pyStrListRepr (cs : List String) : String :=
  "[" ++ String.intercalate ", " (cs.map (fun c => "\x27" ++ c ++ "\x27")) ++ "]"

/-- The `Choices` line emitted by `print_config` for one node: the
`if/elif` chain on the widget kind (radio, range, toggle, menu, other). -/
def choicesLine (w : CameraWidget) : String :=
  if w.wtype == .radio then
    "  Choices     : " ++ pyStrListRepr w.data.choices
  else if w.wtype == .range then
    "  Choices     : min=" ++ w.data.rangeMin ++ ", max=" ++ w.data.rangeMax
      ++ ", step=" ++ w.data.rangeStep
  else if w.wtype == .toggle then
    "  Choices     : [0, 1]"
  else if w.wtype == .menu then
    "  Choices     : " ++ pyStrListRepr w.data.choices
  else
    "  Choices     : n/a"

/-- The block of lines `print_config` writes for one non-section node. -/
structure ConfigDescriptor where
  path : String
  label : String
  readonlyText : String
  dataType : String
  widgetTypeText : String
  current : String
  choicesText : String
deriving DecidableEq, Repr

/-- The descriptor `print_config` emits for `child` at `path`
(lines 63-78 of the script). -/
def descriptorOf (w : CameraWidget) (path : String) : ConfigDescriptor :=
  { path := path
  , label := w.data.label
  , readonlyText := if w.data.readonly then "yes" else "no"
  , dataType := w.data.valueType
  , widgetTypeText := gp_widget_types w.wtype
  , current := w.data.value
  , choicesText := choicesLine w }

mutual

/-- `print_config(config, parent)`: walk the children of `config`; recurse
into sections with the extended path, emit one descriptor for every other
node.  The `for` loop over `config.get_children()` is `print_forest`. -/
def print_config : CameraWidget → String → List ConfigDescriptor
  | .mk _ _ children, parent => print_forest children parent

/-- The body of `print_config`'s loop over the children list. -/
def print_forest : List CameraWidget → String → List ConfigDescriptor
  | [], _ => []
  | child :: rest, parent =>
      (if child.wtype == .section then
        print_config child (parent ++ "/" ++ child.name)
      else
        [descriptorOf child (parent ++ "/" ++ child.name)])
      ++ print_forest rest parent

end

/-- Modelled from the spec: the separator-join of a list of path components
("paths are unique strings formed by joining ancestor names with a
separator"). -/
def joinPath : List String → String
  | [] => ""
  | [x] => x
  | x :: y :: xs => x ++ "/" ++ joinPath (y :: xs)

mutual

/-- Modelled from the spec: the traversal contract of section 4.3 — for one
node, emit one descriptor at the join of its ancestor names and its own
name unless the node is a section, and recurse into the children. -/
def spec_node : CameraWidget → List String → List ConfigDescriptor
  | .mk d t children, ancestors =>
      (if t == .section then []
       else [descriptorOf (.mk d t children) (joinPath (ancestors ++ [d.name]))])
      ++ spec_forest children (ancestors ++ [d.name])

/-- Modelled from the spec: the traversal contract applied to a forest. -/
def spec_forest : List CameraWidget → List String → List ConfigDescriptor
  | [], _ => []
  | w :: ws, ancestors => spec_node w ancestors ++ spec_forest ws ancestors

end

mutual

/-- The data-model invariant of the spec's section 3: every node that is not
a section is a leaf ("all other kinds are leaves"). -/
def wfWidget : CameraWidget → Bool
  | .mk _ t children =>
      (t == .section || children.isEmpty) && wfForest children

/-- `wfWidget` on every node of a forest. -/
def wfForest : List CameraWidget → Bool
  | [] => true
  | w :: ws => wfWidget w && wfForest ws

end

/-- `widget.get_child_by_name(name)`: look up a child by name; raises
`gp.GPhoto2Error` (modelled as `Except.error`) when no child has that
name. -/
def get_child_by_name (w : CameraWidget) (childName : String) : Except String CameraWidget :=
  match w.children.find? (fun c => c.name == childName) with
  | some c => Except.ok c
  | none => Except.error ("no child with name " ++ childName)

/-- Outcomes of the fallible driver calls used by `set_config_value` and
`get_config_value`.  Each accessor call fetches a fresh snapshot, so each
call site carries its own environment. -/
structure AccessorEnv where
  get_config : Except String CameraWidget
  set_value : CameraWidget → String → Except String Unit
  set_config : CameraWidget → Except String Unit

/-- Driver interactions attempted by `set_config_value`, recorded in call
order. -/
inductive DriverCall where
  | getConfigCall
  | setValueCall (childName : String) (value : String)
  | setConfigCall
deriving DecidableEq, Repr

/-- Python truthiness of the `choices` variable of `set_config_value`:
`None` and the empty list are falsy. -/
def choicesTruthy : Option (List String) → Bool
  | none => false
  | some cs => !cs.isEmpty

/-- `value not in choices` for a non-`None` `choices`. -/
def choicesContain : Option (List String) → String → Bool
  | none, _ => false
  | some cs, v => cs.contains v

/-- The invalid-value warning line of `set_config_value`. -/
def invalidValueLine (option value : String) (cs : List String) : String :=
  "   -> invalid value " ++ "\x27" ++ value ++ "\x27" ++ " for option " ++ option
    ++ " (possible choices: " ++ pyStrListRepr cs ++ ")"

/-- The `unsupported setting` line of `set_config_value`'s `except` clause. -/
def unsupportedLine (section_ option value : String) : String :=
  "   -> unsupported setting " ++ section_ ++ "/" ++ option ++ "=" ++ value
    ++ " (nothing configured on DSLR)"

/-- The `try` body of `set_config_value` (lines 84-95): log the attempt,
fetch a snapshot, resolve section then option, compute the radio choices,
warn when the value is outside a truthy choice list, then `set_value` and
`set_config`.  Returns the log lines written, the driver calls attempted,
and `some errorMessage` when a driver call raised. -/
def set_body (env : AccessorEnv) (section_ option value : String) :
    List String × List DriverCall × Option String :=
  let log0 := ["Setting option " ++ section_ ++ "/" ++ option ++ "=\"" ++ value ++ "\""]
  match env.get_config with
  | .error e => (log0, [.getConfigCall], some e)
  | .ok config =>
    match get_child_by_name config section_ with
    | .error e => (log0, [.getConfigCall], some e)
    | .ok sectionNode =>
      match get_child_by_name sectionNode option with
      | .error e => (log0, [.getConfigCall], some e)
      | .ok child =>
        let choices : Option (List String) :=
          if child.wtype == .radio then some child.data.choices else none
        let log1 := log0 ++
          (if choicesTruthy choices && !choicesContain choices value then
            [invalidValueLine option value child.data.choices]
          else [])
        match env.set_value child value with
        | .error e => (log1, [.getConfigCall, .setValueCall child.name value], some e)
        | .ok _ =>
          match env.set_config config with
          | .error e =>
              (log1, [.getConfigCall, .setValueCall child.name value, .setConfigCall], some e)
          | .ok _ =>
              (log1, [.getConfigCall, .setValueCall child.name value, .setConfigCall], none)

/-- `set_config_value(camera, section, option, value)`: run the `try` body;
the `except gp.GPhoto2Error` clause turns any driver error into the
`unsupported setting` log line and a normal return.  The result is the log
written together with the driver calls attempted; `Except.error` would model
an exception escaping to the caller. -/
def set_config_value (env : AccessorEnv) (section_ option value : String) :
    Except String (List String × List DriverCall) :=
  match set_body env section_ option value with
  | (log, calls, none) => Except.ok (log, calls)
  | (log, calls, some _) =>
      Except.ok (log ++ [unsupportedLine section_ option value], calls)

/-- The `try` body of `get_config_value` (lines 103-108): fetch a snapshot,
resolve section then option, read the value, log it.  Returns the log lines
written and the value read, or the driver error. -/
def get_body (env : AccessorEnv) (section_ option : String) :
    List String × Except String String :=
  match env.get_config with
  | .error e => ([], .error e)
  | .ok config =>
    match get_child_by_name config section_ with
    | .error e => ([], .error e)
    | .ok sectionNode =>
      match get_child_by_name sectionNode option with
      | .error e => ([], .error e)
      | .ok child =>
        (["Getting option " ++ section_ ++ "/" ++ option ++ "=" ++ child.data.value],
         .ok child.data.value)

/-- The `Unknown option` line of `get_config_value`'s `except` clause. -/
def unknownOptionLine (section_ option : String) : String :=
  "Unknown option " ++ section_ ++ "/" ++ option

/-- `get_config_value(camera, section, option)`: run the `try` body; the
`except gp.GPhoto2Error` clause logs `Unknown option` and falls off the end
of the function, returning Python's `None` (modelled as `Option.none`).
`Except.error` would model an exception escaping to the caller. -/
def get_config_value (env : AccessorEnv) (section_ option : String) :
    Except String (Option String × List String) :=
  match get_body env section_ option with
  | (log, .ok v) => Except.ok (some v, log)
  | (log, .error _) => Except.ok (none, log ++ [unknownOptionLine section_ option])

/-- The separator line `'=' * 80`. -/
def eqSep : String := String.mk (List.replicate 80 (Char.ofNat 61))

/-- The fixed truncation marker printed after a long console preview. -/
def truncMarker : String := "[... -> see log file for full message]"

/-- `write_log(text, new_section)`: the pair
(lines printed to the console, strings written to the log file).
On `new_section` both sinks first receive the separator; the console then
receives `text[:200]` and, when `len(text) > 200`, the truncation marker;
the file always receives the untruncated text plus a newline. -/
def write_log (text : String) (new_section : Bool) : List String × List String :=
  let consoleSep := if new_section then ["\n" ++ eqSep] else []
  let fileSep := if new_section then ["\n" ++ eqSep ++ "\n"] else []
  let console := consoleSep ++ [text.take 200] ++
    (if text.length > 200 then [truncMarker] else [])
  let file := fileSep ++ [text ++ "\n"]
  (console, file)

/-- `camera_connected()`: return the driver-reported device list, either from
`gp_camera_autodetect` (gPhoto2 2.5+) or from the port-info/abilities
catalog fallback.  Each entry is a (display name, address) pair as used by
`main` (`for index, (name, addr) in enumerate(cameras_list)` reads the name
first). -/
def camera_connected (hasAutodetect : Bool)
    (autodetected portCatalogDetected : List (String × String)) :
    List (String × String) :=
  if hasAutodetect then autodetected else portCatalogDetected

/-- The name ordering used by `sorted(cameras_list, key=lambda x: x[0])`. -/
def nameLE (a b : String × String) : Prop := a.1 ≤ b.1

instance : DecidableRel nameLE := fun a b => String.decidableLE a.1 b.1

instance : IsTotal (String × String) nameLE := ⟨fun a b => le_total a.1 b.1⟩

instance : IsTrans (String × String) nameLE := ⟨fun _ _ _ => le_trans⟩

/-- The enumeration step of `main` (lines 157-163): list the connected
cameras and sort them by display name, as a stable sort keyed on the first
component (Python's `sorted` is a stable sort; any stable sort by the same
key computes the same list). -/
def enumerate_cameras (hasAutodetect : Bool)
    (autodetected portCatalogDetected : List (String × String)) :
    List (String × String) :=
  List.insertionSort nameLE
    (camera_connected hasAutodetect autodetected portCatalogDetected)

/-- One `write_log` invocation in `main`: its text and `new_section` flag. -/
structure LogLine where
  text : String
  newSection : Bool
deriving DecidableEq, Repr

/-- A plain `write_log(text)` call (default `new_section=False`). -/
def logOf (s : String) : LogLine := ⟨s, false⟩

/-- The log lines `print_config` writes for one descriptor (lines 63-78). -/
def descLines (d : ConfigDescriptor) : List LogLine :=
  [⟨d.path, false⟩,
   ⟨"  Label       : " ++ d.label, false⟩,
   ⟨"  Readonly    : " ++ d.readonlyText, false⟩,
   ⟨"  Data type   : " ++ d.dataType, false⟩,
   ⟨"  Widget type : " ++ d.widgetTypeText, false⟩,
   ⟨"  Current     : " ++ d.current, false⟩,
   ⟨d.choicesText, false⟩]

/-- The sub-steps of the capture-test phase of `main` (the `try` block,
lines 179-207), in script order. -/
inductive Step where
  | dumpConfig
  | setIso
  | setTarget
  | getViewfinder
  | vfOn
  | previewStep
  | vfOff
  | captureStep
  | downloadStep
  | getDataStep
  | writeRawStep
  | decodeStep
  | saveJpgStep
deriving DecidableEq, Repr, Fintype

/-- Position of a sub-step in the script order. -/
def stepIdx : Step → Nat
  | .dumpConfig => 0
  | .setIso => 1
  | .setTarget => 2
  | .getViewfinder => 3
  | .vfOn => 4
  | .previewStep => 5
  | .vfOff => 6
  | .captureStep => 7
  | .downloadStep => 8
  | .getDataStep => 9
  | .writeRawStep => 10
  | .decodeStep => 11
  | .saveJpgStep => 12

/-- Outcomes of every fallible driver/library call `main` performs from
state 3 (Open Session) onward.  `Except.error msg` models the call raising
with message `msg`. -/
structure DriverEnv where
  initResult : Except String Unit
  operations : Nat
  getConfigTree : Except String CameraWidget
  envIso : AccessorEnv
  envTarget : AccessorEnv
  envVfGet : AccessorEnv
  envVfOn : AccessorEnv
  envVfOff : AccessorEnv
  capturePreview : Except String Unit
  capture : Except String (String × String)
  fileGet : String → String → Except String Unit
  getData : Except String (List Nat)
  writeRaw : List Nat → Except String Unit
  imageOpen : List Nat → Except String Unit
  imageSave : Except String Unit

/-- Result of the capture-test phase (the `try`/`except` of lines 178-211):
log written, sub-steps attempted, the `error` flag, and whether the two
artifact files were produced. -/
structure ExerciseResult where
  log : List LogLine
  steps : List Step
  error : Bool
  rawWritten : Bool
  jpgWritten : Bool
deriving DecidableEq, Repr

/-- The log record of the `except Exception` handler (line 210). -/
def abortLine (msg : String) : LogLine :=
  ⟨"ABORT   : exception occures: " ++ msg, true⟩

/-- The log record of line 214. -/
def successLine : LogLine := ⟨"SUCCESS : diagnostic completed", true⟩

/-- Intermediate state while the scripted exercise runs. -/
structure ExSt where
  log : List LogLine
  steps : List Step
  raw : Bool
  jpg : Bool
deriving DecidableEq, Repr

/-- Append log lines written unconditionally between sub-steps. -/
def addLog (st : ExSt) (ls : List LogLine) : ExSt :=
  { st with log := st.log ++ ls }

/-- Attempt one fallible sub-step: record the attempt; on an exception the
`except Exception` handler of `main` produces the ABORT record and the
exercise stops (`Except.error` short-circuits the rest of the `try` block);
on success append the lines the sub-step logged. -/
def stepRun (st : ExSt) (s : Step) (act : Except String (List LogLine)) :
    Except ExerciseResult ExSt :=
  let attempted := { st with steps := st.steps ++ [s] }
  match act with
  | .error e =>
      .error ⟨attempted.log ++ [abortLine e], attempted.steps, true,
              attempted.raw, attempted.jpg⟩
  | .ok ls => .ok { attempted with log := attempted.log ++ ls }

/-- The `try` block of `main` (lines 178-207), sub-step by sub-step. -/
def exerciseGo (env : DriverEnv) : Except ExerciseResult ExSt := do
  let st0 : ExSt := ⟨[], [], false, false⟩
  let st1 ← stepRun st0 .dumpConfig
    (env.getConfigTree.map (fun tree => (print_config tree "").flatMap descLines))
  let st1b := addLog st1 [⟨"Testing commands used by pibooth", true⟩]
  let st2 ← stepRun st1b .setIso
    ((set_config_value env.envIso "imgsettings" "iso" "100").map (fun out => out.1.map logOf))
  let st3 ← stepRun st2 .setTarget
    ((set_config_value env.envTarget "settings" "capturetarget" "Memory card").map
      (fun out => out.1.map logOf))
  let vfRes := get_config_value env.envVfGet "actions" "viewfinder"
  let st4 ← stepRun st3 .getViewfinder (vfRes.map (fun out => out.2.map logOf))
  let viewfinder : Option String := match vfRes with | .ok out => out.1 | .error _ => none
  let st5 ← if viewfinder.isSome then
      stepRun st4 .vfOn
        ((set_config_value env.envVfOn "actions" "viewfinder" "1").map
          (fun out => out.1.map logOf))
    else pure st4
  let st5b := addLog st5 [⟨"Take capture preview", false⟩]
  let st6 ← stepRun st5b .previewStep (env.capturePreview.map (fun _ => []))
  let st7 ← if viewfinder.isSome then
      stepRun st6 .vfOff
        ((set_config_value env.envVfOff "actions" "viewfinder" "0").map
          (fun out => out.1.map logOf))
    else pure st6
  let st7b := addLog st7 [⟨"Take a capture", false⟩]
  let capRes := env.capture
  let st8 ← stepRun st7b .captureStep (capRes.map (fun _ => []))
  let gp_path := match capRes with | .ok p => p | .error _ => ("", "")
  let st8b := addLog st8 [⟨"Download file from DSLR", false⟩]
  let st9 ← stepRun st8b .downloadStep ((env.fileGet gp_path.1 gp_path.2).map (fun _ => []))
  let st9b := addLog st9 [⟨"Save capture locally from memory buffer", false⟩]
  let dataRes := env.getData
  let st10 ← stepRun st9b .getDataStep (dataRes.map (fun _ => []))
  let data := match dataRes with | .ok d => d | .error _ => []
  let st11 ← stepRun st10 .writeRawStep ((env.writeRaw data).map (fun _ => []))
  let st11b := { st11 with raw := true }
  let st12 ← stepRun st11b .decodeStep ((env.imageOpen data).map (fun _ => []))
  let st13 ← stepRun st12 .saveJpgStep (env.imageSave.map (fun _ => []))
  pure { st13 with jpg := true }

/-- The capture-test phase: the `try` block with its `except` handler.  When
the block completes, `error` stays `False`. -/
def runExercise (env : DriverEnv) : ExerciseResult :=
  match exerciseGo env with
  | .error aborted => aborted
  | .ok st => ⟨st.log, st.steps, false, st.raw, st.jpg⟩

/-- libgphoto2 ability bits used by `main`. -/
def GP_OPERATION_CAPTURE_IMAGE : Nat := 1

/-- libgphoto2 ability bit for capture preview. -/
def GP_OPERATION_CAPTURE_PREVIEW : Nat := 8

/-- Python's `str` of a boolean. -/
def pyBool (b : Bool) : String := if b then "True" else "False"

/-- Line 172: `gp.GP_OPERATION_CAPTURE_PREVIEW == abilities.operations &
gp.GP_OPERATION_CAPTURE_PREVIEW`. -/
def preview_compat (operations : Nat) : Bool :=
  GP_OPERATION_CAPTURE_PREVIEW == operations &&& GP_OPERATION_CAPTURE_PREVIEW

/-- Line 174: the capture-capability flag. -/
def capture_compat (operations : Nat) : Bool :=
  GP_OPERATION_CAPTURE_IMAGE == operations &&& GP_OPERATION_CAPTURE_IMAGE

/-- How the process leaves `main`: a normal return (exit status 0) or an
uncaught exception propagating out (a crash with a traceback). -/
inductive ExitOutcome where
  | normal
  | crashed
deriving DecidableEq, Repr

/-- Observable outcome of `main` from state 3 (Open Session) onward. -/
structure RunResult where
  log : List LogLine
  steps : List Step
  teardown : Bool
  error : Bool
  rawWritten : Bool
  jpgWritten : Bool
  outcome : ExitOutcome
deriving DecidableEq, Repr

/-- `main` from line 167 to the end: open the session (`camera.init()` is
not inside any `try`, so a driver error there propagates out of `main`
uncaught and neither the teardown of lines 216-217 nor anything after it
runs), derive the capability flags, run the capture-test phase when
capture-capable, log SUCCESS when no abort happened, then unregister the
log hook and release the session (`teardown`), and log the final pointer
lines. -/
def mainRun (env : DriverEnv) : RunResult :=
  let log0 : List LogLine := [⟨"Stating diagnostic of connected DSLR camera", true⟩]
  match env.initResult with
  | .error _ =>
      ⟨log0, [], false, false, false, false, .crashed⟩
  | .ok _ =>
    let pc := preview_compat env.operations
    let cc := capture_compat env.operations
    let log1 := log0 ++
      [⟨"* Preview compatible: " ++ pyBool pc, false⟩,
       ⟨"* Capture compatible: " ++ pyBool cc, false⟩]
    let ex : ExerciseResult := if cc then runExercise env else ⟨[], [], false, false, false⟩
    let log2 := log1 ++ ex.log
    let log3 := log2 ++ (if ex.error then [] else [successLine])
    let log4 := log3 ++
      [⟨"If you are investigating why pibooth does not work with your DSLR camera,", false⟩,
       ⟨"please paste the content of generated file " ++ "\x27" ++ "diagnostic.log" ++ "\x27", false⟩,
       ⟨"on https://github.com/pibooth/pibooth/issues", false⟩]
    ⟨log4, ex.steps, true, ex.error, ex.rawWritten, ex.jpgWritten, .normal⟩

/-- The first sub-step of the capture-test phase whose driver/library call
raises, if any.  The config get/set helper calls absorb their own driver
errors (see `set_config_value`/`get_config_value`), so only the calls below
can abort the exercise. -/
def firstFailure (env : DriverEnv) : Option Step :=
  match env.getConfigTree with
  | .error _ => some .dumpConfig
  | .ok _ =>
    match env.capturePreview with
    | .error _ => some .previewStep
    | .ok _ =>
      match env.capture with
      | .error _ => some .captureStep
      | .ok p =>
        match env.fileGet p.1 p.2 with
        | .error _ => some .downloadStep
        | .ok _ =>
          match env.getData with
          | .error _ => some .getDataStep
          | .ok d =>
            match env.writeRaw d with
            | .error _ => some .writeRawStep
            | .ok _ =>
              match env.imageOpen d with
              | .error _ => some .decodeStep
              | .ok _ =>
                match env.imageSave with
                | .error _ => some .saveJpgStep
                | .ok _ => none

/-! Concrete sample data used by witnesses and counterexamples. -/

/-- Attributes of a sample window/section node. -/
def nodeData (n : String) : WidgetData :=
  ⟨n, n, false, "<class " ++ "\x27" ++ "str" ++ "\x27" ++ ">", "", [], "0", "0", "0"⟩

/-- Attributes of a sample leaf node holding `v` with choices `cs`. -/
def leafData (n v : String) (cs : List String) : WidgetData :=
  ⟨n, n, false, "<class " ++ "\x27" ++ "str" ++ "\x27" ++ ">", v, cs, "0", "0", "0"⟩

/-- A sample configuration tree with one section and one toggle leaf. -/
def vfTree : CameraWidget :=
  .mk (nodeData "main") .window
    [.mk (nodeData "actions") .section
      [.mk (leafData "viewfinder" "0" []) .toggle []]]

/-- A sample tree whose only leaf is a radio node with an empty choice
list. -/
def radioEmptyTree : CameraWidget :=
  .mk (nodeData "main") .window
    [.mk (nodeData "imgsettings") .section
      [.mk (leafData "iso" "400" []) .radio []]]

/-- A sample tree whose only leaf is a radio node with choices. -/
def radioTree : CameraWidget :=
  .mk (nodeData "main") .window
    [.mk (nodeData "imgsettings") .section
      [.mk (leafData "iso" "400" ["100", "200", "400"]) .radio []]]

/-- An accessor environment whose driver calls all succeed against
`vfTree`. -/
def accessorOkEnv : AccessorEnv :=
  { get_config := .ok vfTree
  , set_value := fun _ _ => .ok ()
  , set_config := fun _ => .ok () }

/-- An accessor environment whose snapshot fetch raises. -/
def accessorFailEnv : AccessorEnv :=
  { get_config := .error "gp error"
  , set_value := fun _ _ => .error "gp error"
  , set_config := fun _ => .error "gp error" }

/-- An accessor environment for the empty-choice-list radio node. -/
def radioEmptyEnv : AccessorEnv :=
  { get_config := .ok radioEmptyTree
  , set_value := fun _ _ => .ok ()
  , set_config := fun _ => .ok () }

/-- An accessor environment for the radio node with choices. -/
def radioEnv : AccessorEnv :=
  { get_config := .ok radioTree
  , set_value := fun _ _ => .ok ()
  , set_config := fun _ => .ok () }

/-- A driver environment in which every call succeeds, on a preview- and
capture-capable device. -/
def envAllOk : DriverEnv :=
  { initResult := .ok ()
  , operations := 9
  , getConfigTree := .ok vfTree
  , envIso := accessorOkEnv
  , envTarget := accessorOkEnv
  , envVfGet := accessorOkEnv
  , envVfOn := accessorOkEnv
  , envVfOff := accessorOkEnv
  , capturePreview := .ok ()
  , capture := .ok ("/store_00010001/DCIM/100CANON", "IMG_0001.JPG")
  , fileGet := fun _ _ => .ok ()
  , getData := .ok [255, 216, 255]
  , writeRaw := fun _ => .ok ()
  , imageOpen := fun _ => .ok ()
  , imageSave := .ok () }

/-- `envAllOk` with `camera.init()` raising. -/
def envInitFail : DriverEnv := { envAllOk with initResult := .error "I/O problem" }

/-- `envAllOk` with `camera.capture(...)` raising. -/
def envCaptureFail : DriverEnv := { envAllOk with capture := .error "capture failed" }

/-- `envAllOk` with `camera.file_get(...)` raising. -/
def envDownloadFail : DriverEnv :=
  { envAllOk with fileGet := fun _ _ => .error "download failed" }

/-- `envAllOk` with `Image.open(...)` raising. -/
def envDecodeFail : DriverEnv :=
  { envAllOk with imageOpen := fun _ => .error "cannot identify image file" }

/-- The value `set_config_value` returns: the `try` body's log and attempted
calls, extended by the `unsupported setting` line when the body raised. -/
def set_result (env : AccessorEnv) (section_ option value : String) :
    List String × List DriverCall :=
  match set_body env section_ option value with
  | (log, calls, none) => (log, calls)
  | (log, calls, some _) => (log ++ [unsupportedLine section_ option value], calls)

/-- The value `get_config_value` returns: the read value and log, or `none`
plus the `Unknown option` line when the body raised. -/
def get_result (env : AccessorEnv) (section_ option : String) :
    Option String × List String :=
  match get_body env section_ option with
  | (log, .ok v) => (some v, log)
  | (log, .error _) => (none, log ++ [unknownOptionLine section_ option])

/-- Replace the logged preview-capability flag line (for either flag value)
by a fixed token; leaves every other log record unchanged. -/
def scrubPreviewLine (l : LogLine) : LogLine :=
  if l.text = "* Preview compatible: True" ∨ l.text = "* Preview compatible: False" then
    ⟨"* Preview compatible: <flag>", false⟩
  else l

/-! ## Theorems -/

theorem set_config_value_eq (env : AccessorEnv) (s o v : String) :
    set_config_value env s o v = Except.ok (set_result env s o v) := by
  unfold set_config_value set_result
  rcases set_body env s o v with ⟨log, calls, err⟩
  cases err <;> rfl

theorem get_config_value_eq (env : AccessorEnv) (s o : String) :
    get_config_value env s o = Except.ok (get_result env s o) := by
  unfold get_config_value get_result
  rcases get_body env s o with ⟨log, res⟩
  cases res <;> rfl

/-- C2: the device-enumeration step returns its (display-name, address)
descriptors sorted by display name: for any driver-reported device set and
indices `i < j` of the result, the name at `i` is lexicographically at most
the name at `j`. -/
theorem enumerate_cameras_sorted_by_name
    (hasAuto : Bool) (auto fallback : List (String × String)) (i j : Nat)
    (hij : i < j) (hj : j < (enumerate_cameras hasAuto auto fallback).length) :
    ((enumerate_cameras hasAuto auto fallback).get ⟨i, Nat.lt_trans hij hj⟩).1
      ≤ ((enumerate_cameras hasAuto auto fallback).get ⟨j, hj⟩).1 := by
  have hs : (enumerate_cameras hasAuto auto fallback).Sorted nameLE :=
    List.sorted_insertionSort nameLE _
  exact hs.rel_get_of_lt (Fin.mk_lt_mk.mpr hij)

theorem enumerate_cameras_sorted_by_name_witness :
    ((enumerate_cameras false [] [("b", "usb:001,001"), ("a", "usb:001,002")]).get
        ⟨0, by simp only [enumerate_cameras, List.length_insertionSort]; decide⟩).1
      ≤ ((enumerate_cameras false [] [("b", "usb:001,001"), ("a", "usb:001,002")]).get
        ⟨1, by simp only [enumerate_cameras, List.length_insertionSort]; decide⟩).1 :=
  enumerate_cameras_sorted_by_name false [] [("b", "usb:001,001"), ("a", "usb:001,002")]
    0 1 (by decide)
    (by simp only [enumerate_cameras, List.length_insertionSort]; decide)

/-- C3: for every (section, option) address and value, a driver error
anywhere in `set_config_value`'s body (resolution, validation, or commit)
is caught inside `set_config_value`, the `unsupported setting ... nothing
configured` line is logged, and the call returns normally — no driver
error reaches the caller. -/
theorem set_config_value_absorbs_driver_errors (env : AccessorEnv) (s o v : String) :
    ∃ out, set_config_value env s o v = Except.ok out ∧
      ∀ e, (set_body env s o v).2.2 = some e → unsupportedLine s o v ∈ out.1 := by
  refine ⟨set_result env s o v, set_config_value_eq env s o v, ?_⟩
  intro e he
  unfold set_result
  rcases hb : set_body env s o v with ⟨log, calls, err⟩
  rw [hb] at he
  simp only at he
  subst he
  simp

theorem set_config_value_absorbs_driver_errors_witness :
    ∃ out, set_config_value accessorFailEnv "imgsettings" "iso" "100" = Except.ok out ∧
      unsupportedLine "imgsettings" "iso" "100" ∈ out.1 := by
  obtain ⟨out, hok, habs⟩ :=
    set_config_value_absorbs_driver_errors accessorFailEnv "imgsettings" "iso" "100"
  exact ⟨out, hok, habs "gp error" rfl⟩

/-- C4: `get_config_value` always returns normally; when the body succeeds
it returns the leaf's current value read from the freshly fetched snapshot,
and on any driver error (including a nonexistent address) it logs the
`Unknown option` line and returns Python's `None` (the absent marker). -/
theorem get_config_value_total (env : AccessorEnv) (s o : String) :
    get_config_value env s o = Except.ok (get_result env s o)
    ∧ (∀ log v, get_body env s o = (log, Except.ok v) →
        get_result env s o = (some v, log))
    ∧ (∀ log e, get_body env s o = (log, Except.error e) →
        get_result env s o = (none, log ++ [unknownOptionLine s o])
        ∧ unknownOptionLine s o ∈ (get_result env s o).2)
    ∧ (∀ cfg secN child,
        env.get_config = Except.ok cfg →
        get_child_by_name cfg s = Except.ok secN →
        get_child_by_name secN o = Except.ok child →
        get_result env s o = (some child.data.value,
          ["Getting option " ++ s ++ "/" ++ o ++ "=" ++ child.data.value])) := by
  refine ⟨get_config_value_eq env s o, ?_, ?_, ?_⟩
  · intro log v hb
    unfold get_result
    rw [hb]
  · intro log e hb
    unfold get_result
    rw [hb]
    simp
  · intro cfg secN child hc hs ho
    unfold get_result get_body
    rw [hc]
    simp [hs, ho]

theorem get_config_value_total_witness :
    get_config_value accessorOkEnv "actions" "viewfinder"
      = Except.ok (some "0", ["Getting option actions/viewfinder=0"])
    ∧ get_config_value accessorFailEnv "actions" "viewfinder"
      = Except.ok (none, [unknownOptionLine "actions" "viewfinder"]) := by
  constructor
  · have h := (get_config_value_total accessorOkEnv "actions" "viewfinder").1
    have h2 := (get_config_value_total accessorOkEnv "actions" "viewfinder").2.2.2
      vfTree
      (CameraWidget.mk (nodeData "actions") WidgetType.section
        [CameraWidget.mk (leafData "viewfinder" "0" []) WidgetType.toggle []])
      (CameraWidget.mk (leafData "viewfinder" "0" []) WidgetType.toggle [])
      rfl rfl rfl
    rw [h, h2]
    rfl
  · have h := (get_config_value_total accessorFailEnv "actions" "viewfinder").1
    have h2 := (get_config_value_total accessorFailEnv "actions" "viewfinder").2.2.1
      [] "gp error" rfl
    rw [h, h2.1]
    simp

/-- C5 counterexample: on a radio node whose declared choice list is empty,
`"100"` is outside the declared choices, yet no invalid-value warning is
logged (`if choices and value not in choices` is skipped because the empty
list is falsy) — only the write is attempted. -/
theorem radio_empty_choices_no_warning :
    (radioEmptyTree.children.head?.map (fun sec => sec.children)
       = some [CameraWidget.mk (leafData "iso" "400" []) WidgetType.radio []])
    ∧ (leafData "iso" "400" []).choices = []
    ∧ set_config_value radioEmptyEnv "imgsettings" "iso" "100"
        = Except.ok (["Setting option imgsettings/iso=\"100\""],
            [DriverCall.getConfigCall, DriverCall.setValueCall "iso" "100",
             DriverCall.setConfigCall])
    ∧ invalidValueLine "iso" "100" [] ∉ ["Setting option imgsettings/iso=\"100\""] :=
  ⟨rfl, rfl, rfl, by decide⟩

/-- C5 (amended): on a radio node whose declared choice list is nonempty and
does not contain the value, `set_config_value` logs the invalid-value
warning and still attempts the underlying write — `set_value` on the node
is called, and when it succeeds the snapshot commit is attempted too. -/
theorem radio_invalid_value_warns_and_still_writes
    (env : AccessorEnv) (s o v : String) (cfg secN child : CameraWidget)
    (hc : env.get_config = Except.ok cfg)
    (hs : get_child_by_name cfg s = Except.ok secN)
    (ho : get_child_by_name secN o = Except.ok child)
    (hr : child.wtype = WidgetType.radio)
    (hne : child.data.choices ≠ [])
    (hnc : child.data.choices.contains v = false) :
    ∃ out, set_config_value env s o v = Except.ok out
      ∧ invalidValueLine o v child.data.choices ∈ out.1
      ∧ DriverCall.setValueCall child.name v ∈ out.2
      ∧ (env.set_value child v = Except.ok () → DriverCall.setConfigCall ∈ out.2) := by
  refine ⟨set_result env s o v, set_config_value_eq env s o v, ?_⟩
  unfold set_result set_body
  rw [hc]
  simp only [hs, ho, hr]
  have h1 : choicesTruthy (some child.data.choices) = true := by
    simp [choicesTruthy, List.isEmpty_iff, hne]
  have h2 : choicesContain (some child.data.choices) v = false := hnc
  rcases hv : env.set_value child v with e | u
  · simp [h1, h2]
  · rcases hcfg : env.set_config cfg with e2 | u2 <;> simp [h1, h2]

theorem radio_invalid_value_warns_and_still_writes_witness :
    ∃ out, set_config_value radioEnv "imgsettings" "iso" "999" = Except.ok out
      ∧ invalidValueLine "iso" "999" ["100", "200", "400"] ∈ out.1
      ∧ DriverCall.setValueCall "iso" "999" ∈ out.2
      ∧ DriverCall.setConfigCall ∈ out.2 := by
  obtain ⟨out, hok, hwarn, hwrite, hcommit⟩ :=
    radio_invalid_value_warns_and_still_writes radioEnv "imgsettings" "iso" "999"
      radioTree
      (CameraWidget.mk (nodeData "imgsettings") WidgetType.section
        [CameraWidget.mk (leafData "iso" "400" ["100", "200", "400"]) WidgetType.radio []])
      (CameraWidget.mk (leafData "iso" "400" ["100", "200", "400"]) WidgetType.radio [])
      rfl rfl rfl rfl (by decide) (by decide)
  exact ⟨out, hok, hwarn, hwrite, hcommit rfl⟩

/-- C8: for every text and section flag, `write_log` echoes to the console
exactly the first 200 units of the text followed by the fixed truncation
marker when the text is longer than 200 units, echoes the text alone (no
marker) otherwise, and in every case the line written to the log file is
the full untruncated text plus a line terminator. -/
theorem write_log_truncation (text : String) (ns : Bool) :
    (text.length > 200 →
      (write_log text ns).1
        = (if ns then ["\n" ++ eqSep] else []) ++ [text.take 200, truncMarker]
      ∧ (text.take 200).data = text.data.take 200)
    ∧ (text.length ≤ 200 →
      (write_log text ns).1 = (if ns then ["\n" ++ eqSep] else []) ++ [text])
    ∧ (write_log text ns).2.getLast? = some (text ++ "\n") := by
  refine ⟨?_, ?_, ?_⟩
  · intro h
    constructor
    · unfold write_log
      simp [h]
    · simp
  · intro h
    have hgt : ¬ text.length > 200 := by omega
    have htake : text.take 200 = text := by
      apply String.ext
      simp only [String.data_take]
      exact List.take_of_length_le h
    unfold write_log
    simp [hgt, htake]
  · unfold write_log
    simp only []
    exact List.getLast?_concat _

theorem write_log_truncation_witness :
    ((write_log (String.mk (List.replicate 201 'x')) false).1
        = (if false then ["\n" ++ eqSep] else [])
          ++ [(String.mk (List.replicate 201 'x')).take 200, truncMarker]
      ∧ ((String.mk (List.replicate 201 'x')).take 200).data
          = (String.mk (List.replicate 201 'x')).data.take 200)
    ∧ (write_log "abc" false).1 = (if false then ["\n" ++ eqSep] else []) ++ ["abc"] :=
  ⟨(write_log_truncation (String.mk (List.replicate 201 'x')) false).1
      (by set_option maxRecDepth 4000 in decide),
   (write_log_truncation "abc" false).2.1 (by decide)⟩

/-- C1 (amended): once `camera.init()` has succeeded, the teardown of lines
216-217 (unregister the gphoto2 logging hook, `camera.exit()`) runs on
every exit path — after the scripted exercise completes, after an ABORT,
and when the device is not capture-capable — and `main` returns normally.
When `camera.init()` itself raises, however, no handler is in scope: the
exception propagates out of `main`, the teardown does not run, and the
process crashes. -/
theorem teardown_on_session_paths (env : DriverEnv) :
    (env.initResult = Except.ok () →
      (mainRun env).teardown = true ∧ (mainRun env).outcome = ExitOutcome.normal)
    ∧ (∀ e, env.initResult = Except.error e →
      (mainRun env).teardown = false ∧ (mainRun env).outcome = ExitOutcome.crashed) := by
  constructor
  · intro h
    simp [mainRun, h]
  · intro e h
    simp [mainRun, h]

theorem teardown_on_session_paths_witness :
    (mainRun envAllOk).teardown = true ∧ (mainRun envAllOk).outcome = ExitOutcome.normal :=
  (teardown_on_session_paths envAllOk).1 rfl

/-- C1 counterexample: in a run whose `camera.init()` raises a driver error
(state 3), state 6 is *not* executed — the teardown flag is false and the
exception escapes `main` uncaught. -/
theorem init_error_skips_teardown :
    envInitFail.initResult = Except.error "I/O problem"
    ∧ (mainRun envInitFail).teardown = false
    ∧ (mainRun envInitFail).outcome = ExitOutcome.crashed :=
  ⟨rfl, rfl, rfl⟩

theorem joinPath_append_single (xs : List String) (y : String) (h : xs ≠ []) :
    joinPath (xs ++ [y]) = joinPath xs ++ "/" ++ y := by
  induction xs with
  | nil => cases h rfl
  | cons x xs ih =>
    cases xs with
    | nil => simp [joinPath]
    | cons z zs =>
      have hzs : (z :: zs : List String) ≠ [] := by simp
      show x ++ "/" ++ joinPath ((z :: zs) ++ [y]) = joinPath (x :: z :: zs) ++ "/" ++ y
      rw [ih hzs]
      rw [show joinPath (x :: z :: zs) = x ++ "/" ++ joinPath (z :: zs) from rfl]
      simp [String.append_assoc]

theorem print_forest_spec :
    ∀ (n : Nat) (ws : List CameraWidget) (ancestors : List String),
      sizeOf ws ≤ n → ancestors ≠ [] → wfForest ws = true →
      print_forest ws (joinPath ancestors) = spec_forest ws ancestors := by
  intro n
  induction n with
  | zero =>
    intro ws anc hsz _ _
    cases ws with
    | nil => rfl
    | cons w rest =>
      exfalso
      have : 0 < sizeOf (w :: rest) := by
        simp only [List.cons.sizeOf_spec]
        omega
      omega
  | succ n ih =>
    intro ws anc hsz hanc hwf
    cases ws with
    | nil => rfl
    | cons w rest =>
      cases w with
      | mk d t children =>
        have hsz1 : sizeOf children ≤ n ∧ sizeOf rest ≤ n := by
          simp only [List.cons.sizeOf_spec, CameraWidget.mk.sizeOf_spec] at hsz
          omega
        have hwf1 : wfWidget (CameraWidget.mk d t children) = true
            ∧ wfForest rest = true := by
          simpa [wfForest, Bool.and_eq_true] using hwf
        have hpath : joinPath anc ++ "/" ++ d.name = joinPath (anc ++ [d.name]) :=
          (joinPath_append_single anc d.name hanc).symm
        have hanc2 : (anc ++ [d.name] : List String) ≠ [] := by simp
        simp only [print_forest, spec_forest, spec_node, CameraWidget.wtype,
          CameraWidget.name, CameraWidget.data]
        by_cases ht : (t == WidgetType.section) = true
        · rw [if_pos ht, if_pos ht]
          simp only [print_config]
          rw [hpath, List.nil_append]
          rw [ih children (anc ++ [d.name]) hsz1.1 hanc2 ?wfc]
          rw [ih rest anc hsz1.2 hanc hwf1.2]
          have hwfw := hwf1.1
          simp only [wfWidget, Bool.and_eq_true] at hwfw
          exact hwfw.2
        · have hempty : children = [] := by
            have hwfw := hwf1.1
            simp only [wfWidget, Bool.and_eq_true, Bool.or_eq_true] at hwfw
            rcases hwfw.1 with hsec | hemp
            · exact absurd hsec ht
            · exact List.isEmpty_iff.mp hemp
          subst hempty
          rw [if_neg ht, if_neg ht]
          rw [hpath]
          rw [ih rest anc hsz1.2 hanc hwf1.2]
          simp [spec_forest]

/-- C6: on any configuration tree obeying the data-model invariant that
non-section nodes are leaves, `print_config` emits exactly the descriptors
described by the spec traversal: one descriptor per non-section node, at
the separator-join of the ancestor names (starting from the `parent`
prefix) and the node's own name, none for section nodes, in depth-first
pre-order. -/
theorem print_config_matches_spec_traversal (config : CameraWidget) (parent : String)
    (hwf : wfForest config.children = true) :
    print_config config parent = spec_forest config.children [parent] := by
  cases config with
  | mk d t children =>
    have hstep : print_config (CameraWidget.mk d t children) parent
        = print_forest children parent := rfl
    rw [hstep]
    have hanc : ([parent] : List String) ≠ [] := by simp
    have hmain := print_forest_spec (sizeOf children) children [parent] le_rfl hanc
      (by simpa [CameraWidget.children] using hwf)
    simpa [joinPath] using hmain

theorem print_config_matches_spec_traversal_witness :
    wfForest vfTree.children = true
    ∧ print_config vfTree "" = spec_forest vfTree.children [""] :=
  ⟨rfl, print_config_matches_spec_traversal vfTree "" rfl⟩

/-- The SUCCESS text never coincides with an ABORT record's text. -/
theorem success_text_ne_abort_text (m : String) :
    "SUCCESS : diagnostic completed" ≠ "ABORT   : exception occures: " ++ m := by
  obtain ⟨md⟩ := m
  intro ht
  have hd := congrArg (fun s : String => s.data.head?) ht
  simp [String.append] at hd

/-- Every line `print_config` writes has `new_section = False`. -/
theorem newSection_true_notin_descLines (t : String) (d : ConfigDescriptor) :
    (⟨t, true⟩ : LogLine) ∉ descLines d := by
  simp [descLines]

/-- Accessor-helper lines are written with `new_section = False`. -/
theorem logOf_ne_newSection_true (x t : String) : logOf x ≠ ⟨t, true⟩ := by
  simp [logOf]

theorem runExercise_abort (env : DriverEnv) (s : Step)
    (hfail : firstFailure env = some s) :
    (∃ m, abortLine m ∈ (runExercise env).log)
    ∧ successLine ∉ (runExercise env).log
    ∧ (∀ t : Step, stepIdx s < stepIdx t → t ∉ (runExercise env).steps)
    ∧ (runExercise env).error = true
    ∧ (runExercise env).jpgWritten = false
    ∧ ((runExercise env).rawWritten = true ↔ stepIdx Step.writeRawStep < stepIdx s) := by
  rcases hgct : env.getConfigTree with e | tree
  · have hs : Step.dumpConfig = s := by simpa [firstFailure, hgct] using hfail
    subst hs
    refine ⟨⟨e, ?_⟩, ?_, ?_, ?_, ?_, ?_⟩
    · simp [runExercise, exerciseGo, stepRun, addLog, Except.map, bind, Except.bind, pure, Except.pure, set_config_value_eq, get_config_value_eq, hgct]
    · simp [runExercise, exerciseGo, stepRun, addLog, Except.map, bind, Except.bind, pure, Except.pure, set_config_value_eq, get_config_value_eq, hgct, successLine, abortLine, success_text_ne_abort_text, newSection_true_notin_descLines, logOf_ne_newSection_true]
    · simp only [runExercise, exerciseGo, stepRun, addLog, Except.map, bind, Except.bind, pure, Except.pure, set_config_value_eq, get_config_value_eq, hgct, Option.isSome_none, Option.isSome_some, Bool.false_eq_true, if_false, if_true]
      decide
    · simp [runExercise, exerciseGo, stepRun, addLog, Except.map, bind, Except.bind, pure, Except.pure, set_config_value_eq, get_config_value_eq, hgct]
    · simp [runExercise, exerciseGo, stepRun, addLog, Except.map, bind, Except.bind, pure, Except.pure, set_config_value_eq, get_config_value_eq, hgct]
    · simp only [runExercise, exerciseGo, stepRun, addLog, Except.map, bind, Except.bind, pure, Except.pure, set_config_value_eq, get_config_value_eq, hgct, Option.isSome_none, Option.isSome_some, Bool.false_eq_true, if_false, if_true]
      decide
  · rcases hcp : env.capturePreview with e | u
    · have hs : Step.previewStep = s := by
        simpa [firstFailure, hgct, hcp] using hfail
      subst hs
      rcases hvf : (get_result env.envVfGet "actions" "viewfinder").1 with _ | v
      · refine ⟨⟨e, ?_⟩, ?_, ?_, ?_, ?_, ?_⟩
        · simp [runExercise, exerciseGo, stepRun, addLog, Except.map, bind, Except.bind, pure, Except.pure, set_config_value_eq, get_config_value_eq, hgct, hcp, hvf]
        · simp [runExercise, exerciseGo, stepRun, addLog, Except.map, bind, Except.bind, pure, Except.pure, set_config_value_eq, get_config_value_eq, hgct, hcp, hvf, successLine, abortLine, success_text_ne_abort_text, newSection_true_notin_descLines, logOf_ne_newSection_true]
        · simp only [runExercise, exerciseGo, stepRun, addLog, Except.map, bind, Except.bind, pure, Except.pure, set_config_value_eq, get_config_value_eq, hgct, hcp, hvf, Option.isSome_none, Option.isSome_some, Bool.false_eq_true, if_false, if_true]
          decide
        · simp [runExercise, exerciseGo, stepRun, addLog, Except.map, bind, Except.bind, pure, Except.pure, set_config_value_eq, get_config_value_eq, hgct, hcp, hvf]
        · simp [runExercise, exerciseGo, stepRun, addLog, Except.map, bind, Except.bind, pure, Except.pure, set_config_value_eq, get_config_value_eq, hgct, hcp, hvf]
        · simp only [runExercise, exerciseGo, stepRun, addLog, Except.map, bind, Except.bind, pure, Except.pure, set_config_value_eq, get_config_value_eq, hgct, hcp, hvf, Option.isSome_none, Option.isSome_some, Bool.false_eq_true, if_false, if_true]
          decide
      · refine ⟨⟨e, ?_⟩, ?_, ?_, ?_, ?_, ?_⟩
        · simp [runExercise, exerciseGo, stepRun, addLog, Except.map, bind, Except.bind, pure, Except.pure, set_config_value_eq, get_config_value_eq, hgct, hcp, hvf]
        · simp [runExercise, exerciseGo, stepRun, addLog, Except.map, bind, Except.bind, pure, Except.pure, set_config_value_eq, get_config_value_eq, hgct, hcp, hvf, successLine, abortLine, success_text_ne_abort_text, newSection_true_notin_descLines, logOf_ne_newSection_true]
        · simp only [runExercise, exerciseGo, stepRun, addLog, Except.map, bind, Except.bind, pure, Except.pure, set_config_value_eq, get_config_value_eq, hgct, hcp, hvf, Option.isSome_none, Option.isSome_some, Bool.false_eq_true, if_false, if_true]
          decide
        · simp [runExercise, exerciseGo, stepRun, addLog, Except.map, bind, Except.bind, pure, Except.pure, set_config_value_eq, get_config_value_eq, hgct, hcp, hvf]
        · simp [runExercise, exerciseGo, stepRun, addLog, Except.map, bind, Except.bind, pure, Except.pure, set_config_value_eq, get_config_value_eq, hgct, hcp, hvf]
        · simp only [runExercise, exerciseGo, stepRun, addLog, Except.map, bind, Except.bind, pure, Except.pure, set_config_value_eq, get_config_value_eq, hgct, hcp, hvf, Option.isSome_none, Option.isSome_some, Bool.false_eq_true, if_false, if_true]
          decide
    · rcases hc : env.capture with e | p
      · have hs : Step.captureStep = s := by
          simpa [firstFailure, hgct, hcp, hc] using hfail
        subst hs
        rcases hvf : (get_result env.envVfGet "actions" "viewfinder").1 with _ | v
        · refine ⟨⟨e, ?_⟩, ?_, ?_, ?_, ?_, ?_⟩
          · simp [runExercise, exerciseGo, stepRun, addLog, Except.map, bind, Except.bind, pure, Except.pure, set_config_value_eq, get_config_value_eq, hgct, hcp, hc, hvf]
          · simp [runExercise, exerciseGo, stepRun, addLog, Except.map, bind, Except.bind, pure, Except.pure, set_config_value_eq, get_config_value_eq, hgct, hcp, hc, hvf, successLine, abortLine, success_text_ne_abort_text, newSection_true_notin_descLines, logOf_ne_newSection_true]
          · simp only [runExercise, exerciseGo, stepRun, addLog, Except.map, bind, Except.bind, pure, Except.pure, set_config_value_eq, get_config_value_eq, hgct, hcp, hc, hvf, Option.isSome_none, Option.isSome_some, Bool.false_eq_true, if_false, if_true]
            decide
          · simp [runExercise, exerciseGo, stepRun, addLog, Except.map, bind, Except.bind, pure, Except.pure, set_config_value_eq, get_config_value_eq, hgct, hcp, hc, hvf]
          · simp [runExercise, exerciseGo, stepRun, addLog, Except.map, bind, Except.bind, pure, Except.pure, set_config_value_eq, get_config_value_eq, hgct, hcp, hc, hvf]
          · simp only [runExercise, exerciseGo, stepRun, addLog, Except.map, bind, Except.bind, pure, Except.pure, set_config_value_eq, get_config_value_eq, hgct, hcp, hc, hvf, Option.isSome_none, Option.isSome_some, Bool.false_eq_true, if_false, if_true]
            decide
        · refine ⟨⟨e, ?_⟩, ?_, ?_, ?_, ?_, ?_⟩
          · simp [runExercise, exerciseGo, stepRun, addLog, Except.map, bind, Except.bind, pure, Except.pure, set_config_value_eq, get_config_value_eq, hgct, hcp, hc, hvf]
          · simp [runExercise, exerciseGo, stepRun, addLog, Except.map, bind, Except.bind, pure, Except.pure, set_config_value_eq, get_config_value_eq, hgct, hcp, hc, hvf, successLine, abortLine, success_text_ne_abort_text, newSection_true_notin_descLines, logOf_ne_newSection_true]
          · simp only [runExercise, exerciseGo, stepRun, addLog, Except.map, bind, Except.bind, pure, Except.pure, set_config_value_eq, get_config_value_eq, hgct, hcp, hc, hvf, Option.isSome_none, Option.isSome_some, Bool.false_eq_true, if_false, if_true]
            decide
          · simp [runExercise, exerciseGo, stepRun, addLog, Except.map, bind, Except.bind, pure, Except.pure, set_config_value_eq, get_config_value_eq, hgct, hcp, hc, hvf]
          · simp [runExercise, exerciseGo, stepRun, addLog, Except.map, bind, Except.bind, pure, Except.pure, set_config_value_eq, get_config_value_eq, hgct, hcp, hc, hvf]
          · simp only [runExercise, exerciseGo, stepRun, addLog, Except.map, bind, Except.bind, pure, Except.pure, set_config_value_eq, get_config_value_eq, hgct, hcp, hc, hvf, Option.isSome_none, Option.isSome_some, Bool.false_eq_true, if_false, if_true]
            decide
      · rcases hfg : env.fileGet p.1 p.2 with e | u2
        · have hs : Step.downloadStep = s := by
            simpa [firstFailure, hgct, hcp, hc, hfg] using hfail
          subst hs
          rcases hvf : (get_result env.envVfGet "actions" "viewfinder").1 with _ | v
          · refine ⟨⟨e, ?_⟩, ?_, ?_, ?_, ?_, ?_⟩
            · simp [runExercise, exerciseGo, stepRun, addLog, Except.map, bind, Except.bind, pure, Except.pure, set_config_value_eq, get_config_value_eq, hgct, hcp, hc, hfg, hvf]
            · simp [runExercise, exerciseGo, stepRun, addLog, Except.map, bind, Except.bind, pure, Except.pure, set_config_value_eq, get_config_value_eq, hgct, hcp, hc, hfg, hvf, successLine, abortLine, success_text_ne_abort_text, newSection_true_notin_descLines, logOf_ne_newSection_true]
            · simp only [runExercise, exerciseGo, stepRun, addLog, Except.map, bind, Except.bind, pure, Except.pure, set_config_value_eq, get_config_value_eq, hgct, hcp, hc, hfg, hvf, Option.isSome_none, Option.isSome_some, Bool.false_eq_true, if_false, if_true]
              decide
            · simp [runExercise, exerciseGo, stepRun, addLog, Except.map, bind, Except.bind, pure, Except.pure, set_config_value_eq, get_config_value_eq, hgct, hcp, hc, hfg, hvf]
            · simp [runExercise, exerciseGo, stepRun, addLog, Except.map, bind, Except.bind, pure, Except.pure, set_config_value_eq, get_config_value_eq, hgct, hcp, hc, hfg, hvf]
            · simp only [runExercise, exerciseGo, stepRun, addLog, Except.map, bind, Except.bind, pure, Except.pure, set_config_value_eq, get_config_value_eq, hgct, hcp, hc, hfg, hvf, Option.isSome_none, Option.isSome_some, Bool.false_eq_true, if_false, if_true]
              decide
          · refine ⟨⟨e, ?_⟩, ?_, ?_, ?_, ?_, ?_⟩
            · simp [runExercise, exerciseGo, stepRun, addLog, Except.map, bind, Except.bind, pure, Except.pure, set_config_value_eq, get_config_value_eq, hgct, hcp, hc, hfg, hvf]
            · simp [runExercise, exerciseGo, stepRun, addLog, Except.map, bind, Except.bind, pure, Except.pure, set_config_value_eq, get_config_value_eq, hgct, hcp, hc, hfg, hvf, successLine, abortLine, success_text_ne_abort_text, newSection_true_notin_descLines, logOf_ne_newSection_true]
            · simp only [runExercise, exerciseGo, stepRun, addLog, Except.map, bind, Except.bind, pure, Except.pure, set_config_value_eq, get_config_value_eq, hgct, hcp, hc, hfg, hvf, Option.isSome_none, Option.isSome_some, Bool.false_eq_true, if_false, if_true]
              decide
            · simp [runExercise, exerciseGo, stepRun, addLog, Except.map, bind, Except.bind, pure, Except.pure, set_config_value_eq, get_config_value_eq, hgct, hcp, hc, hfg, hvf]
            · simp [runExercise, exerciseGo, stepRun, addLog, Except.map, bind, Except.bind, pure, Except.pure, set_config_value_eq, get_config_value_eq, hgct, hcp, hc, hfg, hvf]
            · simp only [runExercise, exerciseGo, stepRun, addLog, Except.map, bind, Except.bind, pure, Except.pure, set_config_value_eq, get_config_value_eq, hgct, hcp, hc, hfg, hvf, Option.isSome_none, Option.isSome_some, Bool.false_eq_true, if_false, if_true]
              decide
        · rcases hgd : env.getData with e | d
          · have hs : Step.getDataStep = s := by
              simpa [firstFailure, hgct, hcp, hc, hfg, hgd] using hfail
            subst hs
            rcases hvf : (get_result env.envVfGet "actions" "viewfinder").1 with _ | v
            · refine ⟨⟨e, ?_⟩, ?_, ?_, ?_, ?_, ?_⟩
              · simp [runExercise, exerciseGo, stepRun, addLog, Except.map, bind, Except.bind, pure, Except.pure, set_config_value_eq, get_config_value_eq, hgct, hcp, hc, hfg, hgd, hvf]
              · simp [runExercise, exerciseGo, stepRun, addLog, Except.map, bind, Except.bind, pure, Except.pure, set_config_value_eq, get_config_value_eq, hgct, hcp, hc, hfg, hgd, hvf, successLine, abortLine, success_text_ne_abort_text, newSection_true_notin_descLines, logOf_ne_newSection_true]
              · simp only [runExercise, exerciseGo, stepRun, addLog, Except.map, bind, Except.bind, pure, Except.pure, set_config_value_eq, get_config_value_eq, hgct, hcp, hc, hfg, hgd, hvf, Option.isSome_none, Option.isSome_some, Bool.false_eq_true, if_false, if_true]
                decide
              · simp [runExercise, exerciseGo, stepRun, addLog, Except.map, bind, Except.bind, pure, Except.pure, set_config_value_eq, get_config_value_eq, hgct, hcp, hc, hfg, hgd, hvf]
              · simp [runExercise, exerciseGo, stepRun, addLog, Except.map, bind, Except.bind, pure, Except.pure, set_config_value_eq, get_config_value_eq, hgct, hcp, hc, hfg, hgd, hvf]
              · simp only [runExercise, exerciseGo, stepRun, addLog, Except.map, bind, Except.bind, pure, Except.pure, set_config_value_eq, get_config_value_eq, hgct, hcp, hc, hfg, hgd, hvf, Option.isSome_none, Option.isSome_some, Bool.false_eq_true, if_false, if_true]
                decide
            · refine ⟨⟨e, ?_⟩, ?_, ?_, ?_, ?_, ?_⟩
              · simp [runExercise, exerciseGo, stepRun, addLog, Except.map, bind, Except.bind, pure, Except.pure, set_config_value_eq, get_config_value_eq, hgct, hcp, hc, hfg, hgd, hvf]
              · simp [runExercise, exerciseGo, stepRun, addLog, Except.map, bind, Except.bind, pure, Except.pure, set_config_value_eq, get_config_value_eq, hgct, hcp, hc, hfg, hgd, hvf, successLine, abortLine, success_text_ne_abort_text, newSection_true_notin_descLines, logOf_ne_newSection_true]
              · simp only [runExercise, exerciseGo, stepRun, addLog, Except.map, bind, Except.bind, pure, Except.pure, set_config_value_eq, get_config_value_eq, hgct, hcp, hc, hfg, hgd, hvf, Option.isSome_none, Option.isSome_some, Bool.false_eq_true, if_false, if_true]
                decide
              · simp [runExercise, exerciseGo, stepRun, addLog, Except.map, bind, Except.bind, pure, Except.pure, set_config_value_eq, get_config_value_eq, hgct, hcp, hc, hfg, hgd, hvf]
              · simp [runExercise, exerciseGo, stepRun, addLog, Except.map, bind, Except.bind, pure, Except.pure, set_config_value_eq, get_config_value_eq, hgct, hcp, hc, hfg, hgd, hvf]
              · simp only [runExercise, exerciseGo, stepRun, addLog, Except.map, bind, Except.bind, pure, Except.pure, set_config_value_eq, get_config_value_eq, hgct, hcp, hc, hfg, hgd, hvf, Option.isSome_none, Option.isSome_some, Bool.false_eq_true, if_false, if_true]
                decide
          · rcases hwr : env.writeRaw d with e | u3
            · have hs : Step.writeRawStep = s := by
                simpa [firstFailure, hgct, hcp, hc, hfg, hgd, hwr] using hfail
              subst hs
              rcases hvf : (get_result env.envVfGet "actions" "viewfinder").1 with _ | v
              · refine ⟨⟨e, ?_⟩, ?_, ?_, ?_, ?_, ?_⟩
                · simp [runExercise, exerciseGo, stepRun, addLog, Except.map, bind, Except.bind, pure, Except.pure, set_config_value_eq, get_config_value_eq, hgct, hcp, hc, hfg, hgd, hwr, hvf]
                · simp [runExercise, exerciseGo, stepRun, addLog, Except.map, bind, Except.bind, pure, Except.pure, set_config_value_eq, get_config_value_eq, hgct, hcp, hc, hfg, hgd, hwr, hvf, successLine, abortLine, success_text_ne_abort_text, newSection_true_notin_descLines, logOf_ne_newSection_true]
                · simp only [runExercise, exerciseGo, stepRun, addLog, Except.map, bind, Except.bind, pure, Except.pure, set_config_value_eq, get_config_value_eq, hgct, hcp, hc, hfg, hgd, hwr, hvf, Option.isSome_none, Option.isSome_some, Bool.false_eq_true, if_false, if_true]
                  decide
                · simp [runExercise, exerciseGo, stepRun, addLog, Except.map, bind, Except.bind, pure, Except.pure, set_config_value_eq, get_config_value_eq, hgct, hcp, hc, hfg, hgd, hwr, hvf]
                · simp [runExercise, exerciseGo, stepRun, addLog, Except.map, bind, Except.bind, pure, Except.pure, set_config_value_eq, get_config_value_eq, hgct, hcp, hc, hfg, hgd, hwr, hvf]
                · simp only [runExercise, exerciseGo, stepRun, addLog, Except.map, bind, Except.bind, pure, Except.pure, set_config_value_eq, get_config_value_eq, hgct, hcp, hc, hfg, hgd, hwr, hvf, Option.isSome_none, Option.isSome_some, Bool.false_eq_true, if_false, if_true]
                  decide
              · refine ⟨⟨e, ?_⟩, ?_, ?_, ?_, ?_, ?_⟩
                · simp [runExercise, exerciseGo, stepRun, addLog, Except.map, bind, Except.bind, pure, Except.pure, set_config_value_eq, get_config_value_eq, hgct, hcp, hc, hfg, hgd, hwr, hvf]
                · simp [runExercise, exerciseGo, stepRun, addLog, Except.map, bind, Except.bind, pure, Except.pure, set_config_value_eq, get_config_value_eq, hgct, hcp, hc, hfg, hgd, hwr, hvf, successLine, abortLine, success_text_ne_abort_text, newSection_true_notin_descLines, logOf_ne_newSection_true]
                · simp only [runExercise, exerciseGo, stepRun, addLog, Except.map, bind, Except.bind, pure, Except.pure, set_config_value_eq, get_config_value_eq, hgct, hcp, hc, hfg, hgd, hwr, hvf, Option.isSome_none, Option.isSome_some, Bool.false_eq_true, if_false, if_true]
                  decide
                · simp [runExercise, exerciseGo, stepRun, addLog, Except.map, bind, Except.bind, pure, Except.pure, set_config_value_eq, get_config_value_eq, hgct, hcp, hc, hfg, hgd, hwr, hvf]
                · simp [runExercise, exerciseGo, stepRun, addLog, Except.map, bind, Except.bind, pure, Except.pure, set_config_value_eq, get_config_value_eq, hgct, hcp, hc, hfg, hgd, hwr, hvf]
                · simp only [runExercise, exerciseGo, stepRun, addLog, Except.map, bind, Except.bind, pure, Except.pure, set_config_value_eq, get_config_value_eq, hgct, hcp, hc, hfg, hgd, hwr, hvf, Option.isSome_none, Option.isSome_some, Bool.false_eq_true, if_false, if_true]
                  decide
            · rcases hio : env.imageOpen d with e | u4
              · have hs : Step.decodeStep = s := by
                  simpa [firstFailure, hgct, hcp, hc, hfg, hgd, hwr, hio] using hfail
                subst hs
                rcases hvf : (get_result env.envVfGet "actions" "viewfinder").1 with _ | v
                · refine ⟨⟨e, ?_⟩, ?_, ?_, ?_, ?_, ?_⟩
                  · simp [runExercise, exerciseGo, stepRun, addLog, Except.map, bind, Except.bind, pure, Except.pure, set_config_value_eq, get_config_value_eq, hgct, hcp, hc, hfg, hgd, hwr, hio, hvf]
                  · simp [runExercise, exerciseGo, stepRun, addLog, Except.map, bind, Except.bind, pure, Except.pure, set_config_value_eq, get_config_value_eq, hgct, hcp, hc, hfg, hgd, hwr, hio, hvf, successLine, abortLine, success_text_ne_abort_text, newSection_true_notin_descLines, logOf_ne_newSection_true]
                  · simp only [runExercise, exerciseGo, stepRun, addLog, Except.map, bind, Except.bind, pure, Except.pure, set_config_value_eq, get_config_value_eq, hgct, hcp, hc, hfg, hgd, hwr, hio, hvf, Option.isSome_none, Option.isSome_some, Bool.false_eq_true, if_false, if_true]
                    decide
                  · simp [runExercise, exerciseGo, stepRun, addLog, Except.map, bind, Except.bind, pure, Except.pure, set_config_value_eq, get_config_value_eq, hgct, hcp, hc, hfg, hgd, hwr, hio, hvf]
                  · simp [runExercise, exerciseGo, stepRun, addLog, Except.map, bind, Except.bind, pure, Except.pure, set_config_value_eq, get_config_value_eq, hgct, hcp, hc, hfg, hgd, hwr, hio, hvf]
                  · simp only [runExercise, exerciseGo, stepRun, addLog, Except.map, bind, Except.bind, pure, Except.pure, set_config_value_eq, get_config_value_eq, hgct, hcp, hc, hfg, hgd, hwr, hio, hvf, Option.isSome_none, Option.isSome_some, Bool.false_eq_true, if_false, if_true]
                    decide
                · refine ⟨⟨e, ?_⟩, ?_, ?_, ?_, ?_, ?_⟩
                  · simp [runExercise, exerciseGo, stepRun, addLog, Except.map, bind, Except.bind, pure, Except.pure, set_config_value_eq, get_config_value_eq, hgct, hcp, hc, hfg, hgd, hwr, hio, hvf]
                  · simp [runExercise, exerciseGo, stepRun, addLog, Except.map, bind, Except.bind, pure, Except.pure, set_config_value_eq, get_config_value_eq, hgct, hcp, hc, hfg, hgd, hwr, hio, hvf, successLine, abortLine, success_text_ne_abort_text, newSection_true_notin_descLines, logOf_ne_newSection_true]
                  · simp only [runExercise, exerciseGo, stepRun, addLog, Except.map, bind, Except.bind, pure, Except.pure, set_config_value_eq, get_config_value_eq, hgct, hcp, hc, hfg, hgd, hwr, hio, hvf, Option.isSome_none, Option.isSome_some, Bool.false_eq_true, if_false, if_true]
                    decide
                  · simp [runExercise, exerciseGo, stepRun, addLog, Except.map, bind, Except.bind, pure, Except.pure, set_config_value_eq, get_config_value_eq, hgct, hcp, hc, hfg, hgd, hwr, hio, hvf]
                  · simp [runExercise, exerciseGo, stepRun, addLog, Except.map, bind, Except.bind, pure, Except.pure, set_config_value_eq, get_config_value_eq, hgct, hcp, hc, hfg, hgd, hwr, hio, hvf]
                  · simp only [runExercise, exerciseGo, stepRun, addLog, Except.map, bind, Except.bind, pure, Except.pure, set_config_value_eq, get_config_value_eq, hgct, hcp, hc, hfg, hgd, hwr, hio, hvf, Option.isSome_none, Option.isSome_some, Bool.false_eq_true, if_false, if_true]
                    decide
              · rcases hsv : env.imageSave with e | u5
                · have hs : Step.saveJpgStep = s := by
                    simpa [firstFailure, hgct, hcp, hc, hfg, hgd, hwr, hio, hsv] using hfail
                  subst hs
                  rcases hvf : (get_result env.envVfGet "actions" "viewfinder").1 with _ | v
                  · refine ⟨⟨e, ?_⟩, ?_, ?_, ?_, ?_, ?_⟩
                    · simp [runExercise, exerciseGo, stepRun, addLog, Except.map, bind, Except.bind, pure, Except.pure, set_config_value_eq, get_config_value_eq, hgct, hcp, hc, hfg, hgd, hwr, hio, hsv, hvf]
                    · simp [runExercise, exerciseGo, stepRun, addLog, Except.map, bind, Except.bind, pure, Except.pure, set_config_value_eq, get_config_value_eq, hgct, hcp, hc, hfg, hgd, hwr, hio, hsv, hvf, successLine, abortLine, success_text_ne_abort_text, newSection_true_notin_descLines, logOf_ne_newSection_true]
                    · simp only [runExercise, exerciseGo, stepRun, addLog, Except.map, bind, Except.bind, pure, Except.pure, set_config_value_eq, get_config_value_eq, hgct, hcp, hc, hfg, hgd, hwr, hio, hsv, hvf, Option.isSome_none, Option.isSome_some, Bool.false_eq_true, if_false, if_true]
                      decide
                    · simp [runExercise, exerciseGo, stepRun, addLog, Except.map, bind, Except.bind, pure, Except.pure, set_config_value_eq, get_config_value_eq, hgct, hcp, hc, hfg, hgd, hwr, hio, hsv, hvf]
                    · simp [runExercise, exerciseGo, stepRun, addLog, Except.map, bind, Except.bind, pure, Except.pure, set_config_value_eq, get_config_value_eq, hgct, hcp, hc, hfg, hgd, hwr, hio, hsv, hvf]
                    · simp only [runExercise, exerciseGo, stepRun, addLog, Except.map, bind, Except.bind, pure, Except.pure, set_config_value_eq, get_config_value_eq, hgct, hcp, hc, hfg, hgd, hwr, hio, hsv, hvf, Option.isSome_none, Option.isSome_some, Bool.false_eq_true, if_false, if_true]
                      decide
                  · refine ⟨⟨e, ?_⟩, ?_, ?_, ?_, ?_, ?_⟩
                    · simp [runExercise, exerciseGo, stepRun, addLog, Except.map, bind, Except.bind, pure, Except.pure, set_config_value_eq, get_config_value_eq, hgct, hcp, hc, hfg, hgd, hwr, hio, hsv, hvf]
                    · simp [runExercise, exerciseGo, stepRun, addLog, Except.map, bind, Except.bind, pure, Except.pure, set_config_value_eq, get_config_value_eq, hgct, hcp, hc, hfg, hgd, hwr, hio, hsv, hvf, successLine, abortLine, success_text_ne_abort_text, newSection_true_notin_descLines, logOf_ne_newSection_true]
                    · simp only [runExercise, exerciseGo, stepRun, addLog, Except.map, bind, Except.bind, pure, Except.pure, set_config_value_eq, get_config_value_eq, hgct, hcp, hc, hfg, hgd, hwr, hio, hsv, hvf, Option.isSome_none, Option.isSome_some, Bool.false_eq_true, if_false, if_true]
                      decide
                    · simp [runExercise, exerciseGo, stepRun, addLog, Except.map, bind, Except.bind, pure, Except.pure, set_config_value_eq, get_config_value_eq, hgct, hcp, hc, hfg, hgd, hwr, hio, hsv, hvf]
                    · simp [runExercise, exerciseGo, stepRun, addLog, Except.map, bind, Except.bind, pure, Except.pure, set_config_value_eq, get_config_value_eq, hgct, hcp, hc, hfg, hgd, hwr, hio, hsv, hvf]
                    · simp only [runExercise, exerciseGo, stepRun, addLog, Except.map, bind, Except.bind, pure, Except.pure, set_config_value_eq, get_config_value_eq, hgct, hcp, hc, hfg, hgd, hwr, hio, hsv, hvf, Option.isSome_none, Option.isSome_some, Bool.false_eq_true, if_false, if_true]
                      decide
                · exfalso
                  simp [firstFailure, hgct, hcp, hc, hfg, hgd, hwr, hio, hsv] at hfail


/-- C7: whenever some sub-step of the scripted exercise raises (the first
failing driver/library call being `s`), the run logs an ABORT record with a
new log section, logs no SUCCESS marker, attempts no sub-step after `s`,
sets the error flag, and still returns normally (process exit status 0). -/
theorem scripted_abort_isolation (env : DriverEnv) (s : Step)
    (hinit : env.initResult = Except.ok ())
    (hcap : capture_compat env.operations = true)
    (hfail : firstFailure env = some s) :
    (∃ m, abortLine m ∈ (mainRun env).log)
    ∧ successLine ∉ (mainRun env).log
    ∧ (∀ t : Step, stepIdx s < stepIdx t → t ∉ (mainRun env).steps)
    ∧ (mainRun env).outcome = ExitOutcome.normal
    ∧ (mainRun env).error = true := by
  obtain ⟨⟨m, hm⟩, hsucc, hsteps, herr, hjpg, hraw⟩ := runExercise_abort env s hfail
  have hsucc2 : (⟨"SUCCESS : diagnostic completed", true⟩ : LogLine) ∉ (runExercise env).log :=
    hsucc
  refine ⟨⟨m, ?_⟩, ?_, ?_, ?_, ?_⟩
  · simp [mainRun, hinit, hcap, hm]
  · simp [mainRun, hinit, hcap, herr, hsucc2, successLine]
  · intro t ht
    have hts := hsteps t ht
    simpa [mainRun, hinit, hcap] using hts
  · simp [mainRun, hinit, hcap]
  · simp [mainRun, hinit, hcap, herr]

theorem scripted_abort_isolation_witness :
    (∃ m, abortLine m ∈ (mainRun envCaptureFail).log)
    ∧ successLine ∉ (mainRun envCaptureFail).log
    ∧ (∀ t : Step, stepIdx Step.captureStep < stepIdx t → t ∉ (mainRun envCaptureFail).steps)
    ∧ (mainRun envCaptureFail).outcome = ExitOutcome.normal
    ∧ (mainRun envCaptureFail).error = true :=
  scripted_abort_isolation envCaptureFail Step.captureStep rfl (by decide) rfl

/-- The capture-test phase never reads the abilities bitmask. -/
theorem runExercise_operations_eq (env : DriverEnv) (ops : Nat) :
    runExercise { env with operations := ops } = runExercise env := by
  cases env
  rfl

/-- C9: the preview-capability flag never influences control flow — for any
two ability masks agreeing on the capture bit (in particular masks differing
only in the capture-preview bit), the same sub-steps execute, the error
flag, artifacts, teardown and exit outcome coincide, and the logs agree
once the single logged preview-flag line is masked. -/
theorem preview_flag_noninterference (env : DriverEnv) (ops2 : Nat)
    (hcc : capture_compat env.operations = capture_compat ops2) :
    (mainRun { env with operations := ops2 }).steps = (mainRun env).steps
    ∧ (mainRun { env with operations := ops2 }).log.map scrubPreviewLine
        = (mainRun env).log.map scrubPreviewLine
    ∧ (mainRun { env with operations := ops2 }).error = (mainRun env).error
    ∧ (mainRun { env with operations := ops2 }).rawWritten = (mainRun env).rawWritten
    ∧ (mainRun { env with operations := ops2 }).jpgWritten = (mainRun env).jpgWritten
    ∧ (mainRun { env with operations := ops2 }).teardown = (mainRun env).teardown
    ∧ (mainRun { env with operations := ops2 }).outcome = (mainRun env).outcome := by
  have hscrub : ∀ b1 b2 : Bool,
      scrubPreviewLine ⟨"* Preview compatible: " ++ pyBool b1, false⟩
        = scrubPreviewLine ⟨"* Preview compatible: " ++ pyBool b2, false⟩ := by
    intro b1 b2
    cases b1 <;> cases b2 <;> rfl
  cases env with
  | mk ir ops gct a1 a2 a3 a4 a5 cp c fg gd wr io isv =>
    have hre : runExercise ⟨ir, ops2, gct, a1, a2, a3, a4, a5, cp, c, fg, gd, wr, io, isv⟩
        = runExercise ⟨ir, ops, gct, a1, a2, a3, a4, a5, cp, c, fg, gd, wr, io, isv⟩ := rfl
    rcases ir with e | u
    · simp [mainRun]
    · have hcc2 : capture_compat ops = capture_compat ops2 := hcc
      simp only [mainRun]
      dsimp only
      rw [hre, ← hcc2]
      simp [List.map_append, hscrub (preview_compat ops2) (preview_compat ops)]

theorem preview_flag_noninterference_witness :
    (mainRun { envAllOk with operations := 1 }).steps = (mainRun envAllOk).steps
    ∧ (mainRun { envAllOk with operations := 1 }).log.map scrubPreviewLine
        = (mainRun envAllOk).log.map scrubPreviewLine
    ∧ (mainRun { envAllOk with operations := 1 }).error = (mainRun envAllOk).error
    ∧ (mainRun { envAllOk with operations := 1 }).rawWritten = (mainRun envAllOk).rawWritten
    ∧ (mainRun { envAllOk with operations := 1 }).jpgWritten = (mainRun envAllOk).jpgWritten
    ∧ (mainRun { envAllOk with operations := 1 }).teardown = (mainRun envAllOk).teardown
    ∧ (mainRun { envAllOk with operations := 1 }).outcome = (mainRun envAllOk).outcome :=
  preview_flag_noninterference envAllOk 1 (by decide)

/-- C10 (amended): artifact creation is not atomic — when the first failing
sub-step is the image decode, the raw artifact has already been written and
stays on disk while the jpg artifact is never created; any failure at or
before the raw write (this includes the download sub-step and the raw-byte
retrieval, not only sub-steps up to the capture) leaves both artifacts
absent. -/
theorem artifact_creation_not_atomic (env : DriverEnv) (s : Step)
    (hinit : env.initResult = Except.ok ())
    (hcap : capture_compat env.operations = true)
    (hfail : firstFailure env = some s) :
    (s = Step.decodeStep →
      (mainRun env).rawWritten = true ∧ (mainRun env).jpgWritten = false)
    ∧ (stepIdx s ≤ stepIdx Step.writeRawStep →
      (mainRun env).rawWritten = false ∧ (mainRun env).jpgWritten = false) := by
  obtain ⟨_, _, _, herr, hjpg, hraw⟩ := runExercise_abort env s hfail
  constructor
  · rintro rfl
    constructor
    · have h10 : (runExercise env).rawWritten = true := hraw.mpr (by decide)
      simpa [mainRun, hinit, hcap] using h10
    · simpa [mainRun, hinit, hcap] using hjpg
  · intro hle
    constructor
    · cases hb : (runExercise env).rawWritten with
      | false => simpa [mainRun, hinit, hcap] using hb
      | true =>
        exfalso
        have hgt := hraw.mp hb
        omega
    · simpa [mainRun, hinit, hcap] using hjpg

theorem artifact_creation_not_atomic_witness :
    (mainRun envDecodeFail).rawWritten = true
    ∧ (mainRun envDecodeFail).jpgWritten = false :=
  (artifact_creation_not_atomic envDecodeFail Step.decodeStep rfl (by decide) rfl).1 rfl

/-- C10 counterexample: a run whose download sub-step (g) raises — strictly
after the capture sub-step (f) — also leaves both artifacts absent, so
failures at or before (f) are not the only ones leaving both artifacts
absent. -/
theorem download_failure_leaves_both_artifacts_absent :
    firstFailure envDownloadFail = some Step.downloadStep
    ∧ stepIdx Step.captureStep < stepIdx Step.downloadStep
    ∧ (mainRun envDownloadFail).rawWritten = false
    ∧ (mainRun envDownloadFail).jpgWritten = false :=
  ⟨rfl, by decide, rfl, rfl⟩

end PiboothDiag
